import Mathlib

set_option maxRecDepth 100000

/-!
Verification of the repository's two artifacts.

Part A models the homomorphic-encryption workflow demonstrated by the
reference program (`src/unnamed/part_000`).  The arithmetic backend
(the external encryption library) is not part of this repository, so the
scheme's public workflow is modelled from the specification: an
immutable `ParameterSet`, key material bound to it, batched plaintext
vectors under the plaintext modulus, and ciphertexts that mirror the
plaintext arithmetic slot-wise while carrying their key lineage.

Part B embeds `Twilio::send_message` from `src/pkg/include/twilio.hpp`
directly: the external effects (the UTF-8 to UCS-2 conversion and the
curl transfer) are inputs to the embedded function, and its control
flow, return value and `response` output follow the source line by line.
-/

/-- Modelled from the spec: the immutable algebraic context
`{plaintextModulus, ringParameter, henselLift, modulusChainBits, keySwitchWidth}`
(spec section 3).  `initContext` below fills the first three fields, and
`buildModChain` finalizes the last two, mirroring the reference driver. -/
structure ParameterSet where
  plaintextModulus : Nat
  ringParameter : Nat
  henselLift : Nat
  modulusChainBits : Nat
  keySwitchWidth : Nat
deriving DecidableEq

/-- Modelled from the spec: context construction from
`{plaintextModulus, ringParameter, henselLift}` (spec section 4.1); the
modulus-chain fields are not yet finalized. -/
def initContext (m p r : Nat) : ParameterSet :=
  ⟨p, m, r, 0, 0⟩

/-- Modelled from the spec: the follow-up build-modulus-chain step takes
`{modulusChainBits, keySwitchWidth}` and finalizes the parameter set
(spec section 4.1). -/
def buildModChain (P : ParameterSet) (bits c : Nat) : ParameterSet :=
  { P with modulusChainBits := bits, keySwitchWidth := c }

/-- Smallest factor of `n` that is at least `k`, searched with explicit
fuel; returns `n` itself when no factor below the square root is found. -/
def smallestFactorFrom (n : Nat) : Nat → Nat → Nat
  | 0, _ => n
  | fuel + 1, k =>
      if n < k * k then n
      else if n % k = 0 then k
      else smallestFactorFrom n fuel (k + 1)

/-- Smallest prime factor of `n` (for `n ≥ 2`). -/
def smallestFactor (n : Nat) : Nat :=
  smallestFactorFrom n n 2

/-- Divides out of `n` every occurrence of the factor `q`, with explicit fuel. -/
def stripFactor : Nat → Nat → Nat → Nat
  | 0, n, _ => n
  | fuel + 1, n, q =>
      if 1 < q ∧ 1 < n ∧ n % q = 0 then stripFactor fuel (n / q) q else n

/-- Euler-totient accumulator: repeatedly removes the smallest prime
factor `q` of `n` and multiplies the accumulator by `(q - 1) / q`. -/
def phiGo : Nat → Nat → Nat → Nat
  | 0, _, acc => acc
  | fuel + 1, n, acc =>
      if n ≤ 1 then acc
      else
        phiGo fuel (stripFactor n n (smallestFactor n)) (acc / smallestFactor n * (smallestFactor n - 1))

/-- Euler's totient `φ(m)`, computed by factorization. -/
def eulerPhi (m : Nat) : Nat :=
  phiGo m m m

/-- Multiplicative-order search: `acc` is the current power of `p` modulo
`m`, `d` the exponent reached so far; returns the first `d' > d` with
`p ^ d' ≡ 1 (mod m)`, or `0` when the fuel runs out. -/
def ordGo (p m : Nat) : Nat → Nat → Nat → Nat
  | 0, _, _ => 0
  | fuel + 1, acc, d =>
      if acc * p % m = 1 then d + 1
      else ordGo p m fuel (acc * p % m) (d + 1)

/-- Multiplicative order of `p` modulo `m` (`0` when `p` is not invertible). -/
def multOrd (p m : Nat) : Nat :=
  ordGo (p % m) m m 1 0

/-- Modelled from the spec: the slot count is derived jointly from
`plaintextModulus` and `ringParameter` (spec section 3); the backend's
standard batching formula `φ(m)` divided by the order of `p` modulo `m`
is used, with `0` when the ring parameter yields no slots. -/
def slotCount (P : ParameterSet) : Nat :=
  if multOrd P.plaintextModulus P.ringParameter = 0 then 0
  else eulerPhi P.ringParameter / multOrd P.plaintextModulus P.ringParameter

/-- Modelled from the spec: an estimated security level in bits, exposed
by the finalized parameter set (spec section 4.1); the estimation formula
itself is backend-internal and out of scope, so it is modelled as a fixed
deterministic function of the parameter fields. -/
def securityLevel (P : ParameterSet) : Nat :=
  eulerPhi P.ringParameter * 3 / (P.modulusChainBits + 110)

/-- Modelled from the spec: secret key material bound to a `ParameterSet`
(spec section 4.2); `keyId` stands for the randomness-derived identity of
the key material and `switchReady` for the presence of key-switching
matrices. -/
structure SecretKey where
  params : ParameterSet
  keyId : Nat
  switchReady : Bool
deriving DecidableEq

/-- Modelled from the spec: the shareable public half of a key pair,
never mutated after generation (spec section 3). -/
structure PublicKey where
  params : ParameterSet
  keyId : Nat
deriving DecidableEq

/-- Modelled from the spec: `GenerateSecretKey(ParameterSet) → SecretKey`,
allocating fresh randomness-derived key material (spec section 4.2); the
randomness is threaded in as `seed`. -/
def GenerateSecretKey (P : ParameterSet) (seed : Nat) : SecretKey :=
  ⟨P, seed, false⟩

/-- Modelled from the spec: `DeriveKeySwitchingMaterial(SecretKey)`
updates the secret key's internal switching matrices (spec section 4.2). -/
def DeriveKeySwitchingMaterial (sk : SecretKey) : SecretKey :=
  { sk with switchReady := true }

/-- Modelled from the spec: the public key is a read-only capability view
derived from the secret key — one-directional narrowing, never the
reverse (spec sections 4.2 and 9). -/
def SecretKey.publicKey (sk : SecretKey) : PublicKey :=
  ⟨sk.params, sk.keyId⟩

/-- Modelled from the spec: a batched integer vector under the plaintext
modulus of its parameter set, one integer per slot (spec section 3). -/
structure PlaintextVector where
  params : ParameterSet
  slots : List Int
deriving DecidableEq

/-- Modelled from the spec: an opaque encrypted value bound to exactly one
public key's parameter set and key lineage, representing one plaintext
vector (spec section 3); the backend's internal ciphertext representation
is out of scope, so the represented slots are carried directly. -/
structure Ciphertext where
  params : ParameterSet
  keyId : Nat
  payload : List Int
deriving DecidableEq

/-- Modelled from the spec: the error kinds of section 7. -/
inductive SchemeError where
  | InvalidParameter
  | KeyNotReady
  | IncompatibleContext
  | IndexOutOfRange
  | NoiseBudgetExhausted
deriving DecidableEq

/-- Two ciphertexts share the same parameter-set/public-key lineage. -/
def sameLineage (c₁ c₂ : Ciphertext) : Prop :=
  c₁.params = c₂.params ∧ c₁.keyId = c₂.keyId

instance (c₁ c₂ : Ciphertext) : Decidable (sameLineage c₁ c₂) :=
  inferInstanceAs (Decidable (_ ∧ _))

/-- Modelled from the spec: `Encrypt(PublicKey, PlaintextVector) → Ciphertext`,
binding the ciphertext to the public key's parameter set and lineage, and
failing with `IncompatibleContext` when the plaintext's context differs
(spec section 4.4). -/
def Encrypt (pk : PublicKey) (v : PlaintextVector) : Except SchemeError Ciphertext :=
  if v.params = pk.params then .ok ⟨pk.params, pk.keyId, v.slots⟩
  else .error .IncompatibleContext

/-- Modelled from the spec: `Decrypt(SecretKey, Ciphertext) → PlaintextVector`,
failing with `IncompatibleContext` when the ciphertext was not produced
under this key's lineage (spec section 4.4); noise exhaustion is a
backend concern and out of scope. -/
def Decrypt (sk : SecretKey) (c : Ciphertext) : Except SchemeError PlaintextVector :=
  if c.params = sk.params ∧ c.keyId = sk.keyId then .ok ⟨c.params, c.payload⟩
  else .error .IncompatibleContext

/-- Modelled from the spec: homomorphic elementwise sum modulo the
plaintext modulus, requiring both operands to share lineage
(spec section 4.4). -/
def CtxtAdd (c₁ c₂ : Ciphertext) : Except SchemeError Ciphertext :=
  if sameLineage c₁ c₂ then
    .ok ⟨c₁.params, c₁.keyId,
      List.zipWith (fun a b => (a + b) % (c₁.params.plaintextModulus : Int)) c₁.payload c₂.payload⟩
  else .error .IncompatibleContext

/-- Modelled from the spec: homomorphic elementwise difference modulo the
plaintext modulus, requiring shared lineage (spec section 4.4). -/
def CtxtSub (c₁ c₂ : Ciphertext) : Except SchemeError Ciphertext :=
  if sameLineage c₁ c₂ then
    .ok ⟨c₁.params, c₁.keyId,
      List.zipWith (fun a b => (a - b) % (c₁.params.plaintextModulus : Int)) c₁.payload c₂.payload⟩
  else .error .IncompatibleContext

/-- Modelled from the spec: homomorphic elementwise product modulo the
plaintext modulus, requiring shared lineage (spec section 4.4). -/
def CtxtMul (c₁ c₂ : Ciphertext) : Except SchemeError Ciphertext :=
  if sameLineage c₁ c₂ then
    .ok ⟨c₁.params, c₁.keyId,
      List.zipWith (fun a b => a * b % (c₁.params.plaintextModulus : Int)) c₁.payload c₂.payload⟩
  else .error .IncompatibleContext

/-- Modelled from the spec: `AddConstant(Ciphertext, constant)` folds a
scalar into every slot modulo the plaintext modulus (spec section 4.4). -/
def CtxtAddConstant (c : Ciphertext) (k : Int) : Ciphertext :=
  ⟨c.params, c.keyId, c.payload.map (fun a => (a + k) % (c.params.plaintextModulus : Int))⟩

/-- Modelled from the spec: elementwise plaintext sum modulo the
plaintext modulus (spec section 4.3). -/
def PtxtAdd (v₁ v₂ : PlaintextVector) : PlaintextVector :=
  ⟨v₁.params, List.zipWith (fun a b => (a + b) % (v₁.params.plaintextModulus : Int)) v₁.slots v₂.slots⟩

/-- Modelled from the spec: elementwise plaintext difference modulo the
plaintext modulus (spec section 4.3). -/
def PtxtSub (v₁ v₂ : PlaintextVector) : PlaintextVector :=
  ⟨v₁.params, List.zipWith (fun a b => (a - b) % (v₁.params.plaintextModulus : Int)) v₁.slots v₂.slots⟩

/-- Modelled from the spec: elementwise plaintext product modulo the
plaintext modulus (spec section 4.3). -/
def PtxtMul (v₁ v₂ : PlaintextVector) : PlaintextVector :=
  ⟨v₁.params, List.zipWith (fun a b => a * b % (v₁.params.plaintextModulus : Int)) v₁.slots v₂.slots⟩

/-- Modelled from the spec: plaintext add-constant, a scalar broadcast to
every slot modulo the plaintext modulus (spec section 4.3). -/
def PtxtAddConstant (v : PlaintextVector) (k : Int) : PlaintextVector :=
  ⟨v.params, v.slots.map (fun a => (a + k) % (v.params.plaintextModulus : Int))⟩

/-- The all-zero plaintext vector of the parameter set's slot count. -/
def zeroVector (P : ParameterSet) : PlaintextVector :=
  ⟨P, List.replicate (slotCount P) 0⟩

instance : DecidableEq (Except SchemeError Ciphertext) := fun
  | .error e, .error f =>
      if h : e = f then .isTrue (by rw [h]) else .isFalse (fun hh => by cases hh; exact h rfl)
  | .error _, .ok _ => .isFalse (fun hh => by cases hh)
  | .ok _, .error _ => .isFalse (fun hh => by cases hh)
  | .ok a, .ok b =>
      if h : a = b then .isTrue (by rw [h]) else .isFalse (fun hh => by cases hh; exact h rfl)

instance : DecidableEq (Except SchemeError PlaintextVector) := fun
  | .error e, .error f =>
      if h : e = f then .isTrue (by rw [h]) else .isFalse (fun hh => by cases hh; exact h rfl)
  | .error _, .ok _ => .isFalse (fun hh => by cases hh)
  | .ok _, .error _ => .isFalse (fun hh => by cases hh)
  | .ok a, .ok b =>
      if h : a = b then .isTrue (by rw [h]) else .isFalse (fun hh => by cases hh; exact h rfl)

instance : DecidableEq (Except SchemeError Int) := fun
  | .error e, .error f =>
      if h : e = f then .isTrue (by rw [h]) else .isFalse (fun hh => by cases hh; exact h rfl)
  | .error _, .ok _ => .isFalse (fun hh => by cases hh)
  | .ok _, .error _ => .isFalse (fun hh => by cases hh)
  | .ok a, .ok b =>
      if h : a = b then .isTrue (by rw [h]) else .isFalse (fun hh => by cases hh; exact h rfl)

/-- The parameter set of the reference driver: plaintext modulus 7777801,
cyclotomic parameter 32109, Hensel lift 1, 500 modulus-chain bits and
key-switching width 2 (`src/unnamed/part_000`, lines 21-36). -/
def demoContext : ParameterSet :=
  buildModChain (initContext 32109 7777801 1) 500 2

/-- The driver's secret key: generated for `demoContext`, then equipped
with key-switching matrices (`src/unnamed/part_000`, lines 48-53); the
randomness identity is fixed at 0. -/
def demoSecretKey : SecretKey :=
  DeriveKeySwitchingMaterial (GenerateSecretKey demoContext 0)

/-- The driver's public key, the capability view of the secret key
(`src/unnamed/part_000`, line 57). -/
def demoPublicKey : PublicKey :=
  demoSecretKey.publicKey

/-- The driver's initial plaintext: slot `i` holds the value `i`
(`src/unnamed/part_000`, lines 67-71). -/
def demoInitialPtxt : PlaintextVector :=
  ⟨demoContext, (List.range (slotCount demoContext)).map (fun i => (i : Int))⟩

/-- The driver's end-to-end run (`src/unnamed/part_000`, lines 77-112):
encrypt the initial plaintext twice, square the first ciphertext and
mirror in plaintext, double by self-add and mirror, subtract from itself
and mirror, add the constant -5 to the first ciphertext while the mirror
gets 7778015, add 2 to the second ciphertext, subtract the first from the
second, and decrypt the second.  Returns the decrypted second ciphertext
paired with the plaintext mirror. -/
def demoRun : Except SchemeError (PlaintextVector × PlaintextVector) := do
  let c ← Encrypt demoPublicKey demoInitialPtxt
  let c2 ← Encrypt demoPublicKey demoInitialPtxt
  let c ← CtxtMul c c
  let p := PtxtMul demoInitialPtxt demoInitialPtxt
  let c ← CtxtAdd c c
  let p := PtxtAdd p p
  let c ← CtxtSub c c
  let p := PtxtSub p p
  let c := CtxtAddConstant c (-5)
  let p := PtxtAddConstant p 7778015
  let c2 := CtxtAddConstant c2 2
  let c2 ← CtxtSub c2 c
  let d ← Decrypt demoSecretKey c2
  pure (d, p)

/-- Slot 0 of a plaintext vector (`0` when there are no slots). -/
def slot0 (v : PlaintextVector) : Int :=
  v.slots.headD 0

/-- A small parameter set used to instantiate the general theorems:
plaintext modulus 5, ring parameter 4 (two slots). -/
def tinyContext : ParameterSet :=
  buildModChain (initContext 4 5 1) 10 2

/-- A second, incompatible parameter set (plaintext modulus 5, ring
parameter 8). -/
def otherContext : ParameterSet :=
  buildModChain (initContext 8 5 1) 10 2

/-- A concrete secret key over `tinyContext`. -/
def tinySecretKey : SecretKey :=
  GenerateSecretKey tinyContext 7

/-- Subtracting a list from itself slot-wise modulo `p` yields zeros. -/
theorem zipWith_sub_self_emod (p : Int) (l : List Int) :
    List.zipWith (fun a b => (a - b) % p) l l = List.replicate l.length 0 := by
  induction l with
  | nil => rfl
  | cons a l ih => simp [List.replicate_succ, ih]

/-- Claim C2: decrypting the homomorphic difference of a ciphertext with
itself, under the key that produced it, yields the all-zero plaintext
vector of the matching slot count. -/
theorem self_subtraction_identity (sk : SecretKey) (c : Ciphertext)
    (hp : c.params = sk.params) (hk : c.keyId = sk.keyId)
    (hlen : c.payload.length = slotCount c.params) :
    (CtxtSub c c).bind (Decrypt sk) = .ok (zeroVector c.params) := by
  simp [CtxtSub, sameLineage, Except.bind, Decrypt, hp, hk, zeroVector,
    zipWith_sub_self_emod, hlen]

/-- Witness for C2 at a concrete ciphertext over `tinyContext`. -/
theorem self_subtraction_identity_witness :
    (CtxtSub ⟨tinyContext, 7, [3, 4]⟩ ⟨tinyContext, 7, [3, 4]⟩).bind (Decrypt tinySecretKey)
      = .ok (zeroVector tinyContext) :=
  self_subtraction_identity tinySecretKey ⟨tinyContext, 7, [3, 4]⟩ rfl rfl (by decide)

/-- Claim C3: decryption inverts encryption — encrypting a plaintext
vector under the public key derived from a secret key and decrypting with
that secret key returns the vector unchanged. -/
theorem encrypt_decrypt_roundtrip (sk : SecretKey) (v : PlaintextVector)
    (h : v.params = sk.params) :
    (Encrypt sk.publicKey v).bind (Decrypt sk) = .ok v := by
  obtain ⟨P, s⟩ := v
  simp only at h
  subst h
  simp [Encrypt, Decrypt, SecretKey.publicKey, Except.bind]

/-- Witness for C3 at a concrete plaintext vector over `tinyContext`. -/
theorem encrypt_decrypt_roundtrip_witness :
    (Encrypt tinySecretKey.publicKey ⟨tinyContext, [1, 2]⟩).bind (Decrypt tinySecretKey)
      = .ok ⟨tinyContext, [1, 2]⟩ :=
  encrypt_decrypt_roundtrip tinySecretKey ⟨tinyContext, [1, 2]⟩ rfl

/-- Claim C4: homomorphic ciphertext multiplication mirrors elementwise
plaintext multiplication modulo the plaintext modulus: decrypting the
square of an encryption of `v` yields the plaintext square of `v`. -/
theorem multiply_mirrors_plaintext (sk : SecretKey) (v : PlaintextVector)
    (h : v.params = sk.params) :
    (Encrypt sk.publicKey v).bind (fun c => (CtxtMul c c).bind (Decrypt sk))
      = .ok (PtxtMul v v) := by
  obtain ⟨P, s⟩ := v
  simp only at h
  subst h
  simp [Encrypt, CtxtMul, sameLineage, Decrypt, SecretKey.publicKey, Except.bind, PtxtMul]

/-- Witness for C4 at a concrete plaintext vector over `tinyContext`. -/
theorem multiply_mirrors_plaintext_witness :
    (Encrypt tinySecretKey.publicKey ⟨tinyContext, [3, 4]⟩).bind
        (fun c => (CtxtMul c c).bind (Decrypt tinySecretKey))
      = .ok (PtxtMul ⟨tinyContext, [3, 4]⟩ ⟨tinyContext, [3, 4]⟩) :=
  multiply_mirrors_plaintext tinySecretKey ⟨tinyContext, [3, 4]⟩ rfl

/-- Claim C5: adding a constant commutes with encryption — decrypting
`AddConstant(Encrypt(v), k)` equals the plaintext `AddConstant(v, k)` in
every slot. -/
theorem addConstant_consistent (sk : SecretKey) (v : PlaintextVector) (k : Int)
    (h : v.params = sk.params) :
    (Encrypt sk.publicKey v).bind (fun c => Decrypt sk (CtxtAddConstant c k))
      = .ok (PtxtAddConstant v k) := by
  obtain ⟨P, s⟩ := v
  simp only at h
  subst h
  simp [Encrypt, CtxtAddConstant, Decrypt, SecretKey.publicKey, Except.bind, PtxtAddConstant]

/-- Witness for C5 at a concrete plaintext vector and constant. -/
theorem addConstant_consistent_witness :
    (Encrypt tinySecretKey.publicKey ⟨tinyContext, [3, 4]⟩).bind
        (fun c => Decrypt tinySecretKey (CtxtAddConstant c 11))
      = .ok (PtxtAddConstant ⟨tinyContext, [3, 4]⟩ 11) :=
  addConstant_consistent tinySecretKey ⟨tinyContext, [3, 4]⟩ 11 rfl

/-- Claim C6: on parameter sets with plaintext modulus 7777801, ring
parameter 32109 and Hensel lift 1, slot count and security level are
deterministic functions of the parameter set — two queries on the same
set return equal values. -/
theorem slot_count_security_level_deterministic (P Q : ParameterSet)
    (_hp : P.plaintextModulus = 7777801) (_hm : P.ringParameter = 32109)
    (_hr : P.henselLift = 1) (hPQ : P = Q) :
    slotCount P = slotCount Q ∧ securityLevel P = securityLevel Q := by
  subst hPQ
  exact ⟨rfl, rfl⟩

/-- Witness for C6 at the driver's parameter set. -/
theorem slot_count_security_level_deterministic_witness :
    slotCount demoContext = slotCount demoContext ∧
    securityLevel demoContext = securityLevel demoContext :=
  slot_count_security_level_deterministic demoContext demoContext rfl rfl rfl rfl

/-- Claim C7: the binary ciphertext operations, encryption and decryption
fail with `IncompatibleContext` when their operands do not share the same
parameter-set/public-key lineage, producing no result. -/
theorem incompatible_lineage_fails (c₁ c₂ : Ciphertext) (pk : PublicKey)
    (sk : SecretKey) (v : PlaintextVector)
    (h₁₂ : ¬ sameLineage c₁ c₂) (hv : v.params ≠ pk.params)
    (hc : ¬ (c₁.params = sk.params ∧ c₁.keyId = sk.keyId)) :
    CtxtAdd c₁ c₂ = .error .IncompatibleContext ∧
    CtxtSub c₁ c₂ = .error .IncompatibleContext ∧
    CtxtMul c₁ c₂ = .error .IncompatibleContext ∧
    Encrypt pk v = .error .IncompatibleContext ∧
    Decrypt sk c₁ = .error .IncompatibleContext := by
  refine ⟨?_, ?_, ?_, ?_, ?_⟩ <;>
    simp [CtxtAdd, CtxtSub, CtxtMul, Encrypt, Decrypt, h₁₂, hv, hc]

/-- Witness for C7 at concrete operands with mismatched lineages. -/
theorem incompatible_lineage_fails_witness :
    CtxtAdd ⟨tinyContext, 0, []⟩ ⟨otherContext, 0, []⟩ = .error .IncompatibleContext ∧
    CtxtSub ⟨tinyContext, 0, []⟩ ⟨otherContext, 0, []⟩ = .error .IncompatibleContext ∧
    CtxtMul ⟨tinyContext, 0, []⟩ ⟨otherContext, 0, []⟩ = .error .IncompatibleContext ∧
    Encrypt ⟨tinyContext, 0⟩ ⟨otherContext, []⟩ = .error .IncompatibleContext ∧
    Decrypt ⟨otherContext, 1, false⟩ ⟨tinyContext, 0, []⟩ = .error .IncompatibleContext :=
  incompatible_lineage_fails ⟨tinyContext, 0, []⟩ ⟨otherContext, 0, []⟩ ⟨tinyContext, 0⟩
    ⟨otherContext, 1, false⟩ ⟨otherContext, []⟩ (by decide) (by decide) (by decide)

/-- Claim C8: no operation after modulus-chain finalization changes any
field of the parameter set — key generation, key-switching derivation,
encryption, ciphertext arithmetic and decryption all carry the finalized
parameter set through unchanged. -/
theorem parameter_set_immutable (P : ParameterSet) (seed : Nat) (sk : SecretKey)
    (v : PlaintextVector) (c₁ c₂ : Ciphertext) (k : Int)
    (hv : v.params = sk.params) (h₁₂ : sameLineage c₁ c₂)
    (hc : c₁.params = sk.params ∧ c₁.keyId = sk.keyId) :
    (GenerateSecretKey P seed).params = P ∧
    (DeriveKeySwitchingMaterial sk).params = sk.params ∧
    (Encrypt sk.publicKey v).map Ciphertext.params = .ok sk.params ∧
    (CtxtAdd c₁ c₂).map Ciphertext.params = .ok c₁.params ∧
    (CtxtSub c₁ c₂).map Ciphertext.params = .ok c₁.params ∧
    (CtxtMul c₁ c₂).map Ciphertext.params = .ok c₁.params ∧
    (CtxtAddConstant c₁ k).params = c₁.params ∧
    (Decrypt sk c₁).map PlaintextVector.params = .ok c₁.params := by
  refine ⟨rfl, rfl, ?_, ?_, ?_, ?_, rfl, ?_⟩ <;>
    simp [Encrypt, CtxtAdd, CtxtSub, CtxtMul, Decrypt, SecretKey.publicKey,
      Except.map, hv, h₁₂, hc, hc.1]

/-- Witness for C8 at concrete compatible operands over `tinyContext`. -/
theorem parameter_set_immutable_witness :
    (GenerateSecretKey tinyContext 3).params = tinyContext ∧
    (DeriveKeySwitchingMaterial tinySecretKey).params = tinySecretKey.params ∧
    (Encrypt tinySecretKey.publicKey ⟨tinyContext, [1, 2]⟩).map Ciphertext.params
      = .ok tinySecretKey.params ∧
    (CtxtAdd ⟨tinyContext, 7, [1, 2]⟩ ⟨tinyContext, 7, [3, 4]⟩).map Ciphertext.params
      = .ok (Ciphertext.params ⟨tinyContext, 7, [1, 2]⟩) ∧
    (CtxtSub ⟨tinyContext, 7, [1, 2]⟩ ⟨tinyContext, 7, [3, 4]⟩).map Ciphertext.params
      = .ok (Ciphertext.params ⟨tinyContext, 7, [1, 2]⟩) ∧
    (CtxtMul ⟨tinyContext, 7, [1, 2]⟩ ⟨tinyContext, 7, [3, 4]⟩).map Ciphertext.params
      = .ok (Ciphertext.params ⟨tinyContext, 7, [1, 2]⟩) ∧
    (CtxtAddConstant ⟨tinyContext, 7, [1, 2]⟩ 5).params
      = (Ciphertext.params ⟨tinyContext, 7, [1, 2]⟩) ∧
    (Decrypt tinySecretKey ⟨tinyContext, 7, [1, 2]⟩).map PlaintextVector.params
      = .ok (Ciphertext.params ⟨tinyContext, 7, [1, 2]⟩) :=
  parameter_set_immutable tinyContext 3 tinySecretKey ⟨tinyContext, [1, 2]⟩
    ⟨tinyContext, 7, [1, 2]⟩ ⟨tinyContext, 7, [3, 4]⟩ 5 rfl (by decide) (by decide)

/-- Counterexample to claim C1: in the literal end-to-end run of the
session driver, slot 0 of `Decrypt(C2)` is 7 while slot 0 of the mirrored
plaintext computation is 214 — the two are not equal. -/
theorem demo_slot0_values_differ :
    demoRun.map (fun r => slot0 r.1) = .ok 7 ∧
    demoRun.map (fun r => slot0 r.2) = .ok 214 ∧
    demoRun.map (fun r => slot0 r.1) ≠ demoRun.map (fun r => slot0 r.2) := by
  refine ⟨by decide, by decide, by decide⟩

/-- Amended claim C1: the literal end-to-end run succeeds, and slot 0 of
`Decrypt(C2)` is 7 = 0 + 2 − (−5), while slot 0 of the mirrored plaintext
computation is 214 = 7778015 mod 7777801; the driver's constants −5 and
7778015 do not reconcile, so the two sides differ. -/
theorem demo_slot0_values :
    demoRun.map (fun r => slot0 r.1) = .ok 7 ∧
    demoRun.map (fun r => slot0 r.2) = .ok 214 :=
  ⟨by decide, by decide⟩

/-- Outcome of the `utf8_to_ucs2` conversion called by
`Twilio::send_message` (`src/pkg/include/twilio.hpp`, lines 95-100).
The converter itself lives in `type_conversion.hpp`, which is not part of
the given sources, so its outcome is an input to the embedding: either
the UCS-2 code-unit count on success, or the `what()` string of the
raised range error. -/
inductive ConvOutcome where
  | ok (units : Nat)
  | rangeError (msg : String)
deriving DecidableEq

/-- Outcome of the curl transfer performed by `Twilio::send_message`
(`src/pkg/include/twilio.hpp`, lines 110-156): the `CURLcode` returned by
`curl_easy_perform` (0 is `CURLE_OK`), the HTTP response code delivered
by `curl_easy_getinfo`, and the data the transfer hands to the configured
write callback. -/
structure CurlOutcome where
  resCode : Nat
  httpCode : Int
  body : String
deriving DecidableEq

/-- Model of `curl_easy_strerror`: a fixed descriptive string for each
nonzero `CURLcode`. -/
def curlStrerror (res : Nat) : String :=
  "curl error code " ++ toString res

/-- The oversize-body message built by `Twilio::send_message`
(`src/pkg/include/twilio.hpp`, lines 102-108). -/
def oversizeMessage (units : Nat) : String :=
  "Message body must have 1600 or fewer characters. Cannot send message with "
    ++ toString units ++ " characters."

/-- Result of the embedded `send_message`: the returned boolean, the
`response` output parameter, and whether the curl transfer (the HTTP
request) was performed at all. -/
structure SendResult where
  ret : Bool
  response : String
  httpAttempted : Bool
deriving DecidableEq

/-- Embedding of `Twilio::send_message` (`src/pkg/include/twilio.hpp`,
lines 81-169).  The conversion outcome and the curl outcome are inputs;
the control flow follows the source: a range error from the conversion
returns false with the error's message; more than 1600 UCS-2 code units
returns false with the oversize message; otherwise the transfer runs with
`_null_write` (discarding the body) unless `verbose`, in which case
`_stream_write` accumulates it; a nonzero `CURLcode` returns false with
the curl error string; an HTTP code other than 200 and 201 returns false
with the accumulated stream; otherwise true with the accumulated
stream. -/
def send_message (conv : ConvOutcome) (curl : CurlOutcome) (verbose : Bool) : SendResult :=
  match conv with
  | .rangeError msg => ⟨false, msg, false⟩
  | .ok units =>
      if 1600 < units then ⟨false, oversizeMessage units, false⟩
      else
        let stream := if verbose then curl.body else ""
        if curl.resCode ≠ 0 then ⟨false, curlStrerror curl.resCode, true⟩
        else if curl.httpCode ≠ 200 ∧ curl.httpCode ≠ 201 then ⟨false, stream, true⟩
        else ⟨true, stream, true⟩

/-- Counterexample to claim C9: with `verbose` off, a transfer that ends
with `CURLE_OK` and HTTP code 404 makes `send_message` return false with
an empty `response` — no descriptive message is stored, because the
`_null_write` callback discarded the server's body. -/
theorem send_message_silent_failure_response :
    (send_message (.ok 10) ⟨0, 404, "server error page"⟩ false).ret = false ∧
    (send_message (.ok 10) ⟨0, 404, "server error page"⟩ false).response = "" :=
  ⟨rfl, rfl⟩

/-- Amended claim C9: when the message body converts and fits within 1600
code units, `send_message` returns true iff curl returns `CURLE_OK` and
the HTTP code is 200 or 201; on a curl error the response is the curl
error string; on any other HTTP code it returns false and the response is
the accumulated stream — the server's body when `verbose`, else the empty
string. -/
theorem send_message_result_characterization (units : Nat) (curl : CurlOutcome)
    (verbose : Bool) (hunits : units ≤ 1600) :
    ((send_message (.ok units) curl verbose).ret = true ↔
      curl.resCode = 0 ∧ (curl.httpCode = 200 ∨ curl.httpCode = 201)) ∧
    (curl.resCode ≠ 0 →
      (send_message (.ok units) curl verbose).response = curlStrerror curl.resCode) ∧
    (curl.resCode = 0 → curl.httpCode ≠ 200 → curl.httpCode ≠ 201 →
      (send_message (.ok units) curl verbose).ret = false ∧
      (send_message (.ok units) curl verbose).response =
        (if verbose then curl.body else "")) := by
  have h1600 : ¬ 1600 < units := Nat.not_lt.mpr hunits
  by_cases hres : curl.resCode = 0
  · by_cases h200 : curl.httpCode = 200
    · simp [send_message, h1600, hres, h200]
    · by_cases h201 : curl.httpCode = 201
      · simp [send_message, h1600, hres, h200, h201]
      · simp [send_message, h1600, hres, h200, h201]
  · simp [send_message, h1600, hres]

/-- Witness for the amended C9 at a concrete successful transfer. -/
theorem send_message_result_characterization_witness :
    (((send_message (.ok 10) ⟨0, 200, "server reply"⟩ true).ret = true ↔
        (0 : Nat) = 0 ∧ ((200 : Int) = 200 ∨ (200 : Int) = 201)) ∧
      ((0 : Nat) ≠ 0 →
        (send_message (.ok 10) ⟨0, 200, "server reply"⟩ true).response = curlStrerror 0) ∧
      ((0 : Nat) = 0 → (200 : Int) ≠ 200 → (200 : Int) ≠ 201 →
        (send_message (.ok 10) ⟨0, 200, "server reply"⟩ true).ret = false ∧
        (send_message (.ok 10) ⟨0, 200, "server reply"⟩ true).response = "server reply")) :=
  send_message_result_characterization 10 ⟨0, 200, "server reply"⟩ true (by decide)

/-- Claim C10: when the UTF-8 to UCS-2 conversion raises a range error,
or yields more than 1600 code units, `send_message` returns false, sets
`response` to the explanatory string, and performs no HTTP request. -/
theorem send_message_early_failure_no_network (conv : ConvOutcome) (curl : CurlOutcome)
    (verbose : Bool) (h : ∀ units, conv = .ok units → 1600 < units) :
    (send_message conv curl verbose).ret = false ∧
    (send_message conv curl verbose).httpAttempted = false ∧
    (send_message conv curl verbose).response =
      (match conv with
       | .rangeError msg => msg
       | .ok units => oversizeMessage units) := by
  cases conv with
  | rangeError msg => exact ⟨rfl, rfl, rfl⟩
  | ok units =>
      have hu : 1600 < units := h units rfl
      simp [send_message, hu]

/-- Witness for C10 at a concrete oversize body (1601 code units). -/
theorem send_message_early_failure_no_network_witness :
    (send_message (.ok 1601) ⟨0, 200, "server reply"⟩ false).ret = false ∧
    (send_message (.ok 1601) ⟨0, 200, "server reply"⟩ false).httpAttempted = false ∧
    (send_message (.ok 1601) ⟨0, 200, "server reply"⟩ false).response = oversizeMessage 1601 :=
  send_message_early_failure_no_network (.ok 1601) ⟨0, 200, "server reply"⟩ false
    (fun units h => by cases h; exact Nat.lt_succ_self 1600)
